import Mathlib

/-!
Verification development for the auction-house backend (Rust, axum + DynamoDB).

The definitions below are a shallow embedding of the Auction Transaction
Engine: the item/bid/purchase data model, the store state, and the seller and
buyer route handlers of src/backend/src/routes/seller.rs, buyer.rs, item.rs.

Modelling conventions:
- Each DynamoDB table is a map keyed as the data model prescribes; u64
  attributes are Nat (DynamoDB number arithmetic is exact, no wraparound).
- Every request carries the structural facts of the source call: the table
  name passed via table_name (or none when the source omits it), the key
  attribute names used, and the expression placeholders referenced and bound.
  A request whose table name is missing, whose key attribute names do not
  match the table key schema, or which references an unbound placeholder is
  rejected by the store, as DynamoDB rejects such requests; condition
  expressions are evaluated against the stored record and a failed condition
  aborts the write (inside transact_write_items, the whole transaction).
- Expression STRING parsing (reserved words, separators) is not modelled;
  conditions and update actions are translated to their record-level meaning.
- The f64 arithmetic of the seller-income computation is modelled exactly as
  dyadic rationals with round-to-nearest, ties-to-even at 53 significant
  bits, matching IEEE-754 binary64 at the magnitudes that occur here.
-/

set_option maxRecDepth 100000

namespace AuctionHouse

/-- Fuelled base-2 logarithm on Nat, kernel-reducible. -/
def natLog2Aux : Nat → Nat → Nat
  | 0, _ => 0
  | fuel + 1, n => if n < 2 then 0 else natLog2Aux fuel (n / 2) + 1

/-- Floor of the base-2 logarithm (0 at 0). -/
def natLog2 (n : Nat) : Nat := natLog2Aux n n

/-- Test num / den < 2 ^ e by cross multiplication, for an integer exponent. -/
def fracLtPow2 (num den : Nat) (e : Int) : Bool :=
  if 0 ≤ e then num < 2 ^ e.toNat * den else num * 2 ^ (-e).toNat < den

/-- A finite nonnegative binary64 value, written m * 2 ^ exp. All values the
seller-income computation produces are dyadic, so this represents them
exactly. -/
structure F64 where
  m : Nat
  exp : Int
deriving DecidableEq, Repr

/-- Round the fraction num / den (den > 0) to the nearest binary64 value:
find the binary exponent e with 2 ^ e ≤ num / den < 2 ^ (e + 1), scale to a
53-bit integer significand, and round to nearest, ties to even. Overflow and
subnormals cannot occur at the magnitudes used by the code. -/
def fracRound53 (num den : Nat) : F64 :=
  if num = 0 then ⟨0, 0⟩
  else
    let est : Int := (natLog2 num : Int) - (natLog2 den : Int)
    let e : Int := if fracLtPow2 num den est then est - 1 else est
    let k : Int := e - 52
    let scNum : Nat := if 0 ≤ k then num else num * 2 ^ (-k).toNat
    let scDen : Nat := if 0 ≤ k then den * 2 ^ k.toNat else den
    let fl : Nat := scNum / scDen
    let rem : Nat := scNum % scDen
    let n : Nat :=
      if 2 * rem < scDen then fl
      else if scDen < 2 * rem then fl + 1
      else if fl % 2 = 0 then fl else fl + 1
    ⟨n, k⟩

/-- Rust u64-to-f64 conversion (round to nearest, ties to even). -/
def u64AsF64 (a : Nat) : F64 := fracRound53 a 1

/-- The binary64 value of the literal 0.95 in the source. -/
def f64Lit095 : F64 := fracRound53 19 20

/-- Binary64 multiplication: the exact product re-rounded to 53 bits. -/
def f64Mul (x y : F64) : F64 :=
  let e : Int := x.exp + y.exp
  if 0 ≤ e then fracRound53 (x.m * y.m * 2 ^ e.toNat) 1
  else fracRound53 (x.m * y.m) (2 ^ (-e).toNat)

/-- Floor of a nonnegative binary64 value as a Nat. f64::floor is exact and
the subsequent u64 cast truncates toward zero, which is the same integer. -/
def f64FloorNat (x : F64) : Nat :=
  if 0 ≤ x.exp then x.m * 2 ^ x.exp.toNat else x.m / 2 ^ (-x.exp).toNat

/-- Seller income computed by seller_fulfill_item_by_id (seller.rs line 451):
((bid.amount as f64) * 0.95).floor() as u64, the cast saturating at u64 max. -/
def sellerIncome (amount : Nat) : Nat :=
  min (f64FloorNat (f64Mul (u64AsF64 amount) f64Lit095)) (2 ^ 64 - 1)

/-- Item lifecycle states (models/item.rs, enum ItemState). -/
inductive ItemState where
  | active
  | archived
  | completed
  | failed
  | inactive
deriving DecidableEq, Repr

/-- Display serialization of ItemState (models/item.rs, impl fmt::Display). -/
def ItemState.str : ItemState → String
  | .active => "active"
  | .archived => "archived"
  | .completed => "completed"
  | .failed => "failed"
  | .inactive => "inactive"

/-- Reference to a bid, hash and range key (models/bid.rs, struct BidRef). -/
structure BidRef where
  buyerId : String
  id : Nat
deriving DecidableEq, Repr

/-- Reference to an item, hash and range key (models/item.rs, struct ItemRef). -/
structure ItemRef where
  sellerId : String
  id : Nat
deriving DecidableEq, Repr

/-- An item record (models/item.rs, struct Item). Ulid keys are Nat here;
timestamps and amounts are u64 in the source and Nat here. -/
structure Item where
  sellerId : String
  id : Nat
  createAt : Nat
  name : String
  description : String
  initPrice : Nat
  state : ItemState
  auctionLength : Nat
  images : List String
  isFrozen : Bool
  startDate : Option Nat
  endDate : Option Nat
  currentBid : Option BidRef
  pastBids : List BidRef
  soldBid : Option BidRef
  soldTime : Option Nat
  soldPrice : Option Nat
deriving DecidableEq, Repr

/-- A bid record (models/bid.rs, struct Bid). -/
structure Bid where
  buyerId : String
  id : Nat
  createAt : Nat
  item : ItemRef
  amount : Nat
  isActive : Bool
deriving DecidableEq, Repr

/-- A purchase record (models/bid.rs, struct Purchase). -/
structure Purchase where
  buyerId : String
  id : Nat
  createAt : Nat
  item : ItemRef
  price : Nat
  soldTime : Nat
deriving DecidableEq, Repr

/-- Buyer fund state as addressed by the fund update expressions
(fund, fundOnHold), per the data-model section of the spec. The Rust Buyer
struct (models/user.rs) carries fund but no fundOnHold field; the fund
expressions in buyer.rs and seller.rs use both attribute names, and this
record models the store-level buyer fund attributes those expressions read
and write. -/
structure BuyerRecord where
  fund : Nat
  fundOnHold : Nat
deriving DecidableEq, Repr

/-- Seller fund state as addressed by the seller fund update expression. -/
structure SellerRecord where
  fund : Nat
deriving DecidableEq, Repr

/-- The five DynamoDB tables used by the engine (crate::constants names). -/
inductive TableId where
  | items
  | bids
  | buyers
  | sellers
  | purchases
deriving DecidableEq, Repr

/-- Modelled from the spec: the key schema (key attribute names) of each
table. The table definitions (src/constants.rs and the infrastructure) are
not under src/; the spec's data model identifies Item by (sellerId, itemId),
Bid by (buyerId, bidId) and Purchase by (buyerId, purchaseId), and user
tables by id, matching every correctly keyed access in the routes. -/
def tableSchema : TableId → List String
  | .items => ["sellerId", "id"]
  | .bids => ["buyerId", "id"]
  | .buyers => ["id"]
  | .sellers => ["id"]
  | .purchases => ["buyerId", "id"]

/-- The whole key-value store: one map per table. -/
structure StoreState where
  items : String × Nat → Option Item
  bids : String × Nat → Option Bid
  buyers : String → Option BuyerRecord
  sellers : String → Option SellerRecord
  purchases : String × Nat → Option Purchase

/-- Errors a handler can return (errors.rs, HandlerError collapsed to the
cases the engine distinguishes). invalidRequest stands for a request the
store rejects before execution: a missing table name, key attribute names
that do not match the table key schema, or an expression referencing an
unbound placeholder. conditionFailed is a failed conditional check,
propagated by the handlers as a store error. -/
inductive Err where
  | forbidden
  | notFound
  | badRequest
  | invalidRequest
  | conditionFailed
deriving DecidableEq, Repr

/-- Authenticated principal attached by the middleware (models/auth.rs,
Claim: user id and user type). -/
inductive UserType where
  | seller
  | buyer
  | admin
deriving DecidableEq, Repr

/-- Claim fields the handlers use. -/
structure Claim where
  id : String
  userType : UserType
deriving DecidableEq, Repr

/-- Role check shared by the handlers (routes/mod.rs check_user). -/
def check_user (c : Claim) (t : UserType) : Except Err Unit :=
  if c.userType = t then .ok () else .error .forbidden

/-- A GetItem request: the table name passed to table_name (none when the
source sets none), the key attribute names used, and the record found at the
addressed location. The store rejects the request unless the table name is
present and the key attribute names match the table key schema. -/
def dynGet (table : Option TableId) (keyNames : List String) (found : Option α) :
    Except Err (Option α) :=
  match table with
  | none => .error .invalidRequest
  | some t => if keyNames = tableSchema t then .ok found else .error .invalidRequest

/-- Structural validity data of one write request: table name as passed,
key attribute names, expression placeholders referenced, and expression
attribute values bound. -/
structure WriteReq where
  table : Option TableId
  keyNames : List String
  phRefs : List String
  phBound : List String

/-- A write request is accepted by the store when its table name is present,
its key attribute names match the schema (puts carry no key and use []), and
every referenced placeholder is bound. -/
def writeReqOk (w : WriteReq) : Bool :=
  match w.table with
  | none => false
  | some t =>
      (w.keyNames = tableSchema t || w.keyNames = []) &&
      w.phRefs.all (fun p => w.phBound.contains p)

/-- String-typed attributes of a serialized item record, under the camelCase
names serde_dynamo writes (models/item.rs, serde rename_all camelCase).
Attributes of other DynamoDB types (numbers, lists, maps, null) are not
string-typed and no source condition compares them to a string value. -/
def itemStrAttr (it : Item) (attr : String) : Option String :=
  if attr = "sellerId" then some it.sellerId
  else if attr = "name" then some it.name
  else if attr = "description" then some it.description
  else if attr = "state" then some it.state.str
  else none

/-- Update payload for seller_update_item_by_id (models/item.rs,
struct UpdateItemRequest). -/
structure UpdateItemRequest where
  name : Option String
  description : Option String
  initPrice : Option Nat
  auctionLength : Option Nat
  images : Option (List String)
deriving DecidableEq, Repr

/-- The all-none default payload (UpdateItemRequest::default()). -/
def UpdateItemRequest.empty : UpdateItemRequest := ⟨none, none, none, none, none⟩

/-- Bid request payload (models/bid.rs, struct BidItemRequest). -/
structure BidItemRequest where
  sellerId : String
  id : Nat
  amount : Nat
deriving DecidableEq, Repr

/-- seller_delete_item_by_id (seller.rs lines 177 to 201): conditional
delete_item on ITEM_TABLE keyed by sellerId and id, condition expression
"itemState = :val" with :val bound to the string "inactive"; the call never
requests return values, and the handler reports NotFound whenever the
response carries no attributes. -/
def seller_delete_item_by_id (s : StoreState) (claim : Claim) (itemId : Nat) :
    StoreState × Except Err Unit :=
  match check_user claim .seller with
  | .error e => (s, .error e)
  | .ok _ =>
    let req : WriteReq := ⟨some .items, ["sellerId", "id"], [":val"], [":val"]⟩
    if writeReqOk req then
      let key := (claim.id, itemId)
      match s.items key with
      | none => (s, .error .conditionFailed)
      | some it =>
        if itemStrAttr it "itemState" = some "inactive" then
          let s' := { s with items := fun k => if k = key then none else s.items k }
          -- lines 196 to 200: the response carries attributes only when
          -- return_values was requested, which this call never does
          let respAttrs : Option Item := none
          if respAttrs.isSome then (s', .ok ()) else (s', .error .notFound)
        else (s, .error .conditionFailed)
    else (s, .error .invalidRequest)

/-- Field updates of seller_update_item_by_id (seller.rs lines 251 to 284).
The update expression writes attributes name, description and images, which
match the serialized item attributes, and init_price and auction_length,
which do not (the record stores initPrice and auctionLength), so those two
SET clauses write orphan attributes the item deserializer ignores. -/
def applyUpdateItem (p : UpdateItemRequest) (it : Item) : Item :=
  { it with
    name := p.name.getD it.name,
    description := p.description.getD it.description,
    images := p.images.getD it.images }

/-- seller_update_item_by_id (seller.rs lines 220 to 289): rejects an empty
payload with BadRequest, then issues one conditional update_item on
ITEM_TABLE with condition expression "itemState = :state" bound to
"inactive". -/
def seller_update_item_by_id (s : StoreState) (claim : Claim) (itemId : Nat)
    (payload : UpdateItemRequest) : StoreState × Except Err Unit :=
  match check_user claim .seller with
  | .error e => (s, .error e)
  | .ok _ =>
    if payload = .empty then (s, .error .badRequest)
    else
      let phs : List String := [":state"]
        ++ (if payload.name.isSome then [":name"] else [])
        ++ (if payload.description.isSome then [":description"] else [])
        ++ (if payload.initPrice.isSome then [":init_price"] else [])
        ++ (if payload.auctionLength.isSome then [":auction_length"] else [])
        ++ (if payload.images.isSome then [":images"] else [])
      let req : WriteReq := ⟨some .items, ["sellerId", "id"], phs, phs⟩
      if writeReqOk req then
        let key := (claim.id, itemId)
        match s.items key with
        | none => (s, .error .conditionFailed)
        | some it =>
          if itemStrAttr it "itemState" = some "inactive" then
            let s' := { s with
              items := fun k => if k = key then some (applyUpdateItem payload it) else s.items k }
            (s', .ok ())
          else (s, .error .conditionFailed)
      else (s, .error .invalidRequest)

/-- seller_publish_item_by_id (seller.rs lines 315 to 356): reads the item
state and auction length, requires state InActive (else BadRequest), then
writes state = Active with startDate = now and endDate = now + auctionLength.
Neither the get_item (lines 324 to 330) nor the update_item (lines 344 to
353) passes a table name, and the update carries no condition expression. -/
def seller_publish_item_by_id (s : StoreState) (claim : Claim) (itemId : Nat)
    (now : Nat) : StoreState × Except Err Unit :=
  match check_user claim .seller with
  | .error e => (s, .error e)
  | .ok _ =>
    match dynGet (none : Option TableId) ["sellerId", "id"] (s.items (claim.id, itemId)) with
    | .error e => (s, .error e)
    | .ok none => (s, .error .notFound)
    | .ok (some item) =>
      if item.state ≠ .inactive then (s, .error .badRequest)
      else
        let sdate := now
        let edate := now + item.auctionLength
        let req : WriteReq :=
          ⟨none, ["sellerId", "id"], [":state", ":sdate", ":edate"], [":state", ":sdate", ":edate"]⟩
        if writeReqOk req then
          let key := (claim.id, itemId)
          let s' := { s with
            items := fun k => if k = key then
                some { item with state := .active, startDate := some sdate, endDate := some edate }
              else s.items k }
          (s', .ok ())
        else (s, .error .invalidRequest)

/-- seller_unpublish_item_by_id (seller.rs lines 374 to 397): one update_item
that sets state = InActive and clears startDate and endDate, conditioned on
state = Active, currentBid null and size(pastBids) = 0. The update_item
passes no table name (lines 383 to 394). -/
def seller_unpublish_item_by_id (s : StoreState) (claim : Claim) (itemId : Nat) :
    StoreState × Except Err Unit :=
  match check_user claim .seller with
  | .error e => (s, .error e)
  | .ok _ =>
    let req : WriteReq :=
      ⟨none, ["sellerId", "id"], [":state", ":old_state", ":null", ":zero"],
        [":state", ":old_state", ":null", ":zero"]⟩
    if writeReqOk req then
      let key := (claim.id, itemId)
      match s.items key with
      | none => (s, .error .conditionFailed)
      | some it =>
        if it.state = .active ∧ it.currentBid = none ∧ it.pastBids = [] then
          let s' := { s with
            items := fun k => if k = key then
                some { it with state := .inactive, startDate := none, endDate := none }
              else s.items k }
          (s', .ok ())
        else (s, .error .conditionFailed)
    else (s, .error .invalidRequest)

/-- The record change of the archive update expression "SET state = :archived"
(seller.rs lines 565 to 567): the call binds the placeholder :archived to
ItemState::Active.into(), so the written state is Active. -/
def archiveUpdateAction (it : Item) : Item := { it with state := ItemState.active }

/-- seller_archive_item_by_id (seller.rs lines 552 to 574): one update_item
with condition "state = :inactive OR state = :failed" and update expression
"SET state = :archived", where the call binds :archived to
ItemState::Active (line 567), not to Archived. The update_item passes no
table name (lines 561 to 570). -/
def seller_archive_item_by_id (s : StoreState) (claim : Claim) (itemId : Nat) :
    StoreState × Except Err Unit :=
  match check_user claim .seller with
  | .error e => (s, .error e)
  | .ok _ =>
    let req : WriteReq :=
      ⟨none, ["sellerId", "id"], [":archived", ":inactive", ":failed"],
        [":archived", ":inactive", ":failed"]⟩
    if writeReqOk req then
      let key := (claim.id, itemId)
      match s.items key with
      | none => (s, .error .conditionFailed)
      | some it =>
        if it.state = .inactive ∨ it.state = .failed then
          let s' := { s with
            items := fun k => if k = key then some (archiveUpdateAction it)
              else s.items k }
          (s', .ok ())
        else (s, .error .conditionFailed)
    else (s, .error .invalidRequest)

/-- seller_fulfill_item_by_id (seller.rs lines 415 to 535): reads the item,
requires state Completed and a current bid (else BadRequest), reads the
winning bid, then submits one transact_write_items with five writes: credit
the seller fund with sellerIncome, debit the buyer fundOnHold guarded by
fundOnHold >= amount, put a Purchase, set the item sold fields and state
Archived, and set the winning bid isActive = false. The item update's
expression (line 503) references placeholder :archived while the call binds
:state (line 507). -/
def seller_fulfill_item_by_id (s : StoreState) (claim : Claim) (itemId : Nat)
    (newPurchaseId : Nat) (now : Nat) : StoreState × Except Err Unit :=
  match check_user claim .seller with
  | .error e => (s, .error e)
  | .ok _ =>
    match dynGet (some .items) ["sellerId", "id"] (s.items (claim.id, itemId)) with
    | .error e => (s, .error e)
    | .ok none => (s, .error .notFound)
    | .ok (some item) =>
      if item.state ≠ .completed ∨ item.currentBid = none then (s, .error .badRequest)
      else
        match item.currentBid with
        | none => (s, .error .badRequest)
        | some curRef =>
          match dynGet (some .bids) ["buyerId", "id"] (s.bids (curRef.buyerId, curRef.id)) with
          | .error e => (s, .error e)
          | .ok none => (s, .error .notFound)
          | .ok (some bid) =>
            let income := sellerIncome bid.amount
            let purchase : Purchase :=
              ⟨bid.buyerId, newPurchaseId, now, ⟨claim.id, itemId⟩, bid.amount, bid.createAt⟩
            -- seller_update, lines 465 to 474
            let sellerUpd : WriteReq := ⟨some .sellers, ["id"], [":amount"], [":amount"]⟩
            -- buyer_update, lines 476 to 486
            let buyerUpd : WriteReq := ⟨some .buyers, ["id"], [":amount"], [":amount"]⟩
            -- purchase_put, lines 488 to 495
            let purchasePut : WriteReq := ⟨some .purchases, [], [], []⟩
            -- item_update, lines 497 to 510
            let itemUpd : WriteReq :=
              ⟨some .items, ["sellerId", "id"],
                [":bid_ref", ":time", ":price", ":archived"],
                [":bid_ref", ":time", ":price", ":state"]⟩
            -- bid_update, lines 512 to 522
            let bidUpd : WriteReq := ⟨some .bids, ["buyerId", "id"], [":false"], [":false"]⟩
            if ([sellerUpd, buyerUpd, purchasePut, itemUpd, bidUpd].all writeReqOk) then
              match s.sellers claim.id, s.buyers bid.buyerId with
              | some sellerRec, some buyerRec =>
                if bid.amount ≤ buyerRec.fundOnHold then
                  let s' : StoreState :=
                    { items := fun k => if k = (claim.id, itemId) then
                          some { item with
                                  soldBid := some curRef,
                                  soldTime := some bid.createAt,
                                  soldPrice := some bid.amount,
                                  state := .archived }
                        else s.items k,
                      bids := fun k => if k = (curRef.buyerId, curRef.id) then
                          (s.bids k).map (fun b => { b with isActive := false })
                        else s.bids k,
                      buyers := fun k => if k = bid.buyerId then
                          some { buyerRec with fundOnHold := buyerRec.fundOnHold - bid.amount }
                        else s.buyers k,
                      sellers := fun k => if k = claim.id then
                          some { sellerRec with fund := sellerRec.fund + income }
                        else s.sellers k,
                      purchases := fun k => if k = (bid.buyerId, newPurchaseId) then some purchase
                        else s.purchases k }
                  (s', .ok ())
                else (s, .error .conditionFailed)
              | _, _ => (s, .error .conditionFailed)
            else (s, .error .invalidRequest)

/-- buyer_place_bid (buyer.rs lines 106 to 206): builds the new bid, reads
the item's currentBid pointer, then submits one transact_write_items with
the bid put, the buyer fund update guarded by fund >= amount, the item
update guarded by state = Active, and, when a prior currentBid exists, the
prior bid deactivation. The projection read of the item (lines 129 to 136)
targets BID_TABLE and keys it by sellerId and id, and the prior bid update
(lines 187 to 197) keys BID_TABLE by buyer_id rather than buyerId. -/
def buyer_place_bid (s : StoreState) (claim : Claim) (payload : BidItemRequest)
    (newBidId : Nat) (now : Nat) : StoreState × Except Err BidRef :=
  match check_user claim .buyer with
  | .error e => (s, .error e)
  | .ok _ =>
    let bid : Bid := ⟨claim.id, newBidId, now, ⟨payload.sellerId, payload.id⟩, payload.amount, true⟩
    let bidRef : BidRef := ⟨bid.buyerId, bid.id⟩
    match dynGet (some .bids) ["sellerId", "id"] (s.bids (payload.sellerId, payload.id)) with
    | .error e => (s, .error e)
    | .ok none => (s, .error .notFound)
    | .ok (some _) =>
      -- a bid record carries no currentBid attribute, so the projection
      -- deserializes to PlaceBidProjection with current_bid = None
      let project : Option BidRef := none
      -- put_bid, lines 141 to 148
      let putBid : WriteReq := ⟨some .bids, [], [], []⟩
      -- update_buyer, lines 150 to 160
      let updBuyer : WriteReq := ⟨some .buyers, ["id"], [":amount"], [":amount"]⟩
      -- update_item, lines 162 to 177
      let updItem : WriteReq :=
        ⟨some .items, ["sellerId", "id"], [":bid", ":bid_list", ":active"],
          [":bid", ":bid_list", ":active"]⟩
      -- update_bid for the superseded bid, lines 187 to 197
      let updPrior : WriteReq := ⟨some .bids, ["buyer_id", "id"], [":false"], [":false"]⟩
      let reqs := [putBid, updBuyer, updItem]
        ++ (match project with | some _ => [updPrior] | none => [])
      if reqs.all writeReqOk then
        match s.buyers claim.id, s.items (payload.sellerId, payload.id) with
        | some buyerRec, some item =>
          if payload.amount ≤ buyerRec.fund ∧ item.state = .active then
            let s' : StoreState :=
              { items := fun k => if k = (payload.sellerId, payload.id) then
                    some { item with
                            currentBid := some bidRef,
                            pastBids := item.pastBids ++ [bidRef] }
                  else s.items k,
                bids := fun k =>
                  if k = (bid.buyerId, bid.id) then some bid
                  else
                    match project with
                    | some pr => if k = (pr.buyerId, pr.id) then
                        (s.bids k).map (fun b => { b with isActive := false })
                      else s.bids k
                    | none => s.bids k,
                buyers := fun k => if k = claim.id then
                    some { buyerRec with
                            fund := buyerRec.fund - payload.amount,
                            fundOnHold := buyerRec.fundOnHold + payload.amount }
                  else s.buyers k,
                sellers := s.sellers,
                purchases := s.purchases }
            (s', .ok bidRef)
          else (s, .error .conditionFailed)
        | _, _ => (s, .error .conditionFailed)
      else (s, .error .invalidRequest)

/-- Rust u64-to-i64 cast, wrapping (item.rs line 193, t as i64). -/
def toI64 (t : Nat) : Int := if t < 2 ^ 63 then (t : Int) else (t : Int) - 2 ^ 64

/-- Two's-complement wrap of an integer into the i64 range, the release-mode
behavior of i64 arithmetic overflow. -/
def wrapI64 (x : Int) : Int := (x + 2 ^ 63) % 2 ^ 64 - 2 ^ 63

/-- Scan filter of get_recently_sold (item.rs line 178):
"state = :archived AND soldTime <> :null". A record whose soldTime is absent
or serialized Null fails the inequality against :null. -/
def recentSoldScanFilter (it : Item) : Bool :=
  decide (it.state = ItemState.archived) && decide (it.soldTime ≠ none)

/-- In-handler filter of get_recently_sold (item.rs lines 189 to 197):
diff = now - (t as i64), kept when 0 < diff < TimeDelta::days(1) in
milliseconds. -/
def soldWithinDayFilter (now : Int) (it : Item) : Bool :=
  match it.soldTime with
  | none => false
  | some t =>
      let diff := wrapI64 (now - toI64 t)
      decide (0 < diff) && decide (diff < 86400000)

/-- get_recently_sold (item.rs lines 167 to 200): buyer-only; scans the item
table with the archived-and-sold filter, then keeps the items sold strictly
less than one day before now. -/
def get_recently_sold (claim : Claim) (tableItems : List Item) (now : Int) :
    Except Err (List Item) :=
  match check_user claim .buyer with
  | .error e => .error e
  | .ok _ => .ok ((tableItems.filter recentSoldScanFilter).filter (soldWithinDayFilter now))

/-- Structural record of one store write performed by a core mutating
operation: whether the write itself carries a condition expression, and
whether it is part of a transact_write_items that carries one. -/
structure CoreWrite where
  op : String
  hasCondition : Bool
  inTransactionWithCondition : Bool
deriving DecidableEq, Repr

/-- The writes the core mutating operations issue to item-state or fund
attributes, transcribed from seller.rs and buyer.rs: publish (lines 344 to
353), unpublish (383 to 394), update (239 to 286), delete (186 to 194),
archive (561 to 570), the four writes of place_bid (141 to 197) and the five
writes of fulfill (465 to 522). -/
def coreWrites : List CoreWrite :=
  [⟨"seller_publish_item_by_id update_item", false, false⟩,
   ⟨"seller_unpublish_item_by_id update_item", true, false⟩,
   ⟨"seller_update_item_by_id update_item", true, false⟩,
   ⟨"seller_delete_item_by_id delete_item", true, false⟩,
   ⟨"seller_archive_item_by_id update_item", true, false⟩,
   ⟨"buyer_place_bid put_bid", false, true⟩,
   ⟨"buyer_place_bid update_buyer", true, true⟩,
   ⟨"buyer_place_bid update_item", true, true⟩,
   ⟨"buyer_place_bid update_bid", false, true⟩,
   ⟨"seller_fulfill_item_by_id seller_update", false, true⟩,
   ⟨"seller_fulfill_item_by_id buyer_update", true, true⟩,
   ⟨"seller_fulfill_item_by_id purchase_put", false, true⟩,
   ⟨"seller_fulfill_item_by_id item_update", false, true⟩,
   ⟨"seller_fulfill_item_by_id bid_update", false, true⟩]

/-- A write is guarded when it carries its own condition or sits inside a
transaction that evaluates conditions atomically with it. -/
def guardedWrite (w : CoreWrite) : Bool :=
  w.hasCondition || w.inTransactionWithCondition


/-- An inactive item with no bid history, at key (s1, 1). -/
def witItemInactive : Item :=
  ⟨"s1", 1, 0, "lamp", "desc", 100, .inactive, 3600000, [], false,
    none, none, none, [], none, none, none⟩

/-- A store holding only witItemInactive and its seller. -/
def witStoreInactive : StoreState :=
  { items := fun k => if k = ("s1", 1) then some witItemInactive else none,
    bids := fun _ => none,
    buyers := fun _ => none,
    sellers := fun k => if k = "s1" then some ⟨0⟩ else none,
    purchases := fun _ => none }

/-- An active winning bid of 150 by buyer b1 on item (s1, 1). -/
def witBid : Bid := ⟨"b1", 7, 5, ⟨"s1", 1⟩, 150, true⟩

/-- The item of witBid with state Completed and current bid pointing at it. -/
def witItemCompleted : Item :=
  ⟨"s1", 1, 0, "lamp", "desc", 100, .completed, 3600000, [], false,
    some 0, some 10, some ⟨"b1", 7⟩, [⟨"b1", 7⟩], none, none, none⟩

/-- A store ready for fulfillment: completed item, active winning bid,
buyer holding the winning amount, seller present. -/
def witStoreCompleted : StoreState :=
  { items := fun k => if k = ("s1", 1) then some witItemCompleted else none,
    bids := fun k => if k = ("b1", 7) then some witBid else none,
    buyers := fun k => if k = "b1" then some ⟨0, 150⟩ else none,
    sellers := fun k => if k = "s1" then some ⟨0⟩ else none,
    purchases := fun _ => none }

/-- The item of witBid while the auction is still open: state Active with
witBid as the current bid. -/
def witItemActive : Item :=
  ⟨"s1", 1, 0, "lamp", "desc", 100, .active, 3600000, [], false,
    some 0, some 7200000, some ⟨"b1", 7⟩, [⟨"b1", 7⟩], none, none, none⟩

/-- A store mid-auction: active item with prior high bid b1 of 150, and a
second buyer b2 holding fund 200, about to outbid. -/
def witStoreBidding : StoreState :=
  { items := fun k => if k = ("s1", 1) then some witItemActive else none,
    bids := fun k => if k = ("b1", 7) then some witBid else none,
    buyers := fun k =>
      if k = "b1" then some ⟨0, 150⟩ else if k = "b2" then some ⟨200, 0⟩ else none,
    sellers := fun k => if k = "s1" then some ⟨0⟩ else none,
    purchases := fun _ => none }

/-- Archived item sold 1 ms before the witness call time 10 ^ 12. -/
def witSoldRecent : Item :=
  ⟨"s1", 2, 0, "a", "d", 100, .archived, 0, [], false, none, none, none, [],
    some ⟨"b1", 7⟩, some 999999999999, some 150⟩

/-- Archived item sold exactly 24 hours before the witness call time. -/
def witSoldDayAgo : Item :=
  ⟨"s1", 3, 0, "a", "d", 100, .archived, 0, [], false, none, none, none, [],
    some ⟨"b1", 7⟩, some 999913600000, some 150⟩

/-- Archived item whose soldTime equals the witness call time. -/
def witSoldNow : Item :=
  ⟨"s1", 4, 0, "a", "d", 100, .archived, 0, [], false, none, none, none, [],
    some ⟨"b1", 7⟩, some 1000000000000, some 150⟩

/-- Active (non-archived) item carrying a recent soldTime. -/
def witSoldActive : Item :=
  ⟨"s1", 5, 0, "a", "d", 100, .active, 0, [], false, none, none, none, [],
    none, some 999999999999, none⟩

/-- Archived item that was never sold (no soldTime). -/
def witNeverSold : Item :=
  ⟨"s1", 6, 0, "a", "d", 100, .archived, 0, [], false, none, none, none, [],
    none, none, none⟩

/-- Scan contents for the recently-sold witness. -/
def witRecentList : List Item :=
  [witSoldRecent, witSoldDayAgo, witSoldNow, witSoldActive, witNeverSold]

theorem wrapI64_eq_self {x : Int} (h0 : -(2 ^ 63) ≤ x) (h1 : x < 2 ^ 63) :
    wrapI64 x = x := by
  unfold wrapI64
  omega

theorem wrapI64_shift {x : Int} (h0 : 2 ^ 63 ≤ x) (h1 : x < 2 ^ 64) :
    wrapI64 x = x - 2 ^ 64 := by
  unfold wrapI64
  omega

theorem soldWithinDayFilter_iff (now : Int) (x : Item)
    (hn0 : 86400000 ≤ now) (hn1 : now < 2 ^ 63)
    (hr : x.soldTime.getD 0 < 2 ^ 64) :
    soldWithinDayFilter now x = true ↔
      ∃ t, x.soldTime = some t ∧ 0 < now - (t : Int) ∧ now - (t : Int) < 86400000 := by
  cases hst : x.soldTime with
  | none => simp [soldWithinDayFilter, hst]
  | some t =>
    rw [hst] at hr
    simp only [Option.getD_some] at hr
    simp only [soldWithinDayFilter, hst, Bool.and_eq_true, decide_eq_true_eq,
      Option.some.injEq]
    constructor
    · intro ⟨hd0, hd1⟩
      refine ⟨t, rfl, ?_, ?_⟩ <;>
      · unfold wrapI64 toI64 at hd0 hd1
        by_cases hlt : t < 2 ^ 63 <;> simp only [hlt, if_true, if_false] at hd0 hd1 <;> omega
    · intro ⟨t', ht', hd0, hd1⟩
      cases ht'
      unfold wrapI64 toI64
      by_cases hlt : t < 2 ^ 63 <;> simp only [hlt, if_true, if_false] <;> omega

/-- C1: buyer_place_bid never submits its transaction. Its projection read of
the item targets BID_TABLE keyed by sellerId and id, which the bid table's
key schema (buyerId, id) rejects, so for every store state and request the
handler returns the store's request error (or Forbidden for a non-buyer) and
leaves the entire store unchanged: no Bid is inserted, no fund moves, no item
changes. This refutes the claim that every authenticated buyer call submits
the atomic four-effect transaction. -/
theorem buyer_place_bid_always_rejected (s : StoreState) (claim : Claim)
    (payload : BidItemRequest) (newBidId now : Nat) :
    buyer_place_bid s claim payload newBidId now =
      (s, .error (if claim.userType = .buyer then Err.invalidRequest else Err.forbidden)) := by
  obtain ⟨i, ut⟩ := claim
  cases ut <;> rfl

/-- C6: seller_publish_item_by_id never reads or publishes anything. Its
get_item carries no table name, so the store rejects the request before any
state is read, for every store state, item and time; the handler returns the
request error (or Forbidden for a non-seller) and the item keeps its state
and dates. This refutes the claim that publish activates an InActive item,
returns InvalidState on other states and NotFound on absent items. -/
theorem seller_publish_always_rejected (s : StoreState) (claim : Claim)
    (itemId now : Nat) :
    seller_publish_item_by_id s claim itemId now =
      (s, .error (if claim.userType = .seller then Err.invalidRequest else Err.forbidden)) := by
  obtain ⟨i, ut⟩ := claim
  cases ut <;> rfl

/-- C7: seller_unpublish_item_by_id never performs its conditional write. Its
update_item carries no table name, so the store rejects the request for every
store state; the handler returns the request error (or Forbidden for a
non-seller) and the item is unchanged even when the unpublish precondition
(Active, no current bid, empty bid history) holds. This refutes the claim
that unpublish succeeds exactly on bid-free active items. -/
theorem seller_unpublish_always_rejected (s : StoreState) (claim : Claim)
    (itemId : Nat) :
    seller_unpublish_item_by_id s claim itemId =
      (s, .error (if claim.userType = .seller then Err.invalidRequest else Err.forbidden)) := by
  obtain ⟨i, ut⟩ := claim
  cases ut <;> rfl

/-- C8: seller_archive_item_by_id never archives. Its update_item carries no
table name, so the store rejects the request for every store state and the
item is unchanged even when its state is InActive or Failed; moreover the
update action the call builds binds the :archived placeholder to
ItemState::Active, so even the intended write would set state Active, not
Archived. -/
theorem seller_archive_always_rejected_and_sets_active :
    (∀ (s : StoreState) (claim : Claim) (itemId : Nat),
      seller_archive_item_by_id s claim itemId =
        (s, .error (if claim.userType = .seller then Err.invalidRequest else Err.forbidden))) ∧
    (∀ it : Item, (archiveUpdateAction it).state = ItemState.active ∧
      ItemState.active ≠ ItemState.archived) := by
  constructor
  · intro s claim itemId
    obtain ⟨i, ut⟩ := claim
    cases ut <;> rfl
  · intro it
    exact ⟨rfl, by decide⟩

/-- C9 counterexample: a delete call on an existing InActive item does not
return NotFound; the conditional check fails (the condition tests attribute
itemState, which item records do not carry) and the handler propagates that
store error, which is not the NotFound the claim asserts for every call. -/
theorem seller_delete_inactive_item_not_notfound :
    (seller_delete_item_by_id witStoreInactive ⟨"s1", .seller⟩ 1).2 =
      .error .conditionFailed ∧ Err.conditionFailed ≠ Err.notFound :=
  ⟨rfl, by decide⟩

/-- C9 amended: seller delete never returns success and never NotFound
either. Its condition expression compares attribute itemState, while item
records store the state under the attribute state, so the conditional delete
fails on every record (and on absent records), the store reports a condition
failure, the handler propagates it, and the item is not removed. The
NotFound-on-success path of the handler (it never requests return values, so
a successful delete would still report NotFound) is unreachable. -/
theorem seller_delete_always_condition_failed (s : StoreState) (claim : Claim)
    (itemId : Nat) :
    seller_delete_item_by_id s claim itemId =
      (s, .error (if claim.userType = .seller then Err.conditionFailed else Err.forbidden)) := by
  obtain ⟨i, ut⟩ := claim
  cases ut
  case seller =>
    cases h : s.items (i, itemId) <;>
      simp [seller_delete_item_by_id, check_user, writeReqOk, tableSchema, itemStrAttr, h]
  case buyer => rfl
  case admin => rfl

/-- C2: seller_fulfill_item_by_id never commits its settlement transaction.
For every state in which the claim's preconditions hold (the item exists
with state Completed and a current bid that resolves to a stored Bid), the
transaction is rejected by the store before any effect lands, because the
item update's expression references placeholder :archived while the call
binds :state; the handler returns the store error and the whole store is
unchanged: no seller credit, no buyer debit, no Purchase, no item or bid
update. This refutes the claim that the five effects are submitted and land
atomically. -/
theorem seller_fulfill_transaction_always_rejected (s : StoreState) (claim : Claim)
    (itemId newPurchaseId now : Nat) (item : Item) (r : BidRef) (bid : Bid)
    (hrole : claim.userType = .seller)
    (hit : s.items (claim.id, itemId) = some item)
    (hst : item.state = .completed)
    (hcb : item.currentBid = some r)
    (hbid : s.bids (r.buyerId, r.id) = some bid) :
    seller_fulfill_item_by_id s claim itemId newPurchaseId now =
      (s, .error .invalidRequest) := by
  simp only [seller_fulfill_item_by_id, check_user, hrole, if_pos, dynGet, tableSchema]
  simp [hit, hst, hcb, hbid, writeReqOk, tableSchema]

/-- C2 witness: the rejection at a concrete fulfillable store. -/
theorem seller_fulfill_transaction_always_rejected_witness :
    seller_fulfill_item_by_id witStoreCompleted ⟨"s1", .seller⟩ 1 8 20 =
      (witStoreCompleted, .error .invalidRequest) :=
  seller_fulfill_transaction_always_rejected witStoreCompleted ⟨"s1", .seller⟩ 1 8 20
    witItemCompleted ⟨"b1", 7⟩ witBid rfl rfl rfl rfl rfl

/-- C3 counterexample: the credited amount is not the integer
floor(95 * a / 100) for every u64 amount; at a = 2 ^ 63 the f64 computation
yields 8762203435012036608 while the integer floor is 8762203435012037017. -/
theorem sellerIncome_not_integer_floor_at_pow63 :
    ¬ (sellerIncome 9223372036854775808 = 95 * 9223372036854775808 / 100) := by
  decide

/-- C3 amended: the seller income is the floor of the binary64 product
amount * 0.95. At the documented amount 150 it equals 142, which is also the
integer floor of 95 * 150 / 100; at 2 ^ 63 the two computations differ, the
f64 value falling 409 short of the integer floor. -/
theorem sellerIncome_f64_values :
    (sellerIncome 150 = 142 ∧ 95 * 150 / 100 = 142) ∧
    sellerIncome 9223372036854775808 = 8762203435012036608 ∧
    95 * 9223372036854775808 / 100 = 8762203435012037017 :=
  ⟨⟨by decide, by decide⟩, by decide, by decide⟩

/-- C4: the bid-exclusivity mechanism never runs. At a concrete store where
an active item carries prior high bid b1 (isActive = true) and buyer b2 with
ample funds places a higher bid, the place-bid call is rejected at its
projection read (it targets the bid table with the item's key), the store is
unchanged, the prior bid remains the active one and no superseding bid
exists; no reachable transition ever flips a superseded bid's isActive in
the same transaction as a new bid, contrary to the claim's mechanism. -/
theorem buyer_place_bid_prior_bid_not_superseded :
    buyer_place_bid witStoreBidding ⟨"b2", .buyer⟩ ⟨"s1", 1, 180⟩ 11 30 =
      (witStoreBidding, .error .invalidRequest) ∧
    witStoreBidding.bids ("b1", 7) = some witBid ∧
    witBid.isActive = true ∧
    witStoreBidding.bids ("b2", 11) = none :=
  ⟨rfl, rfl, rfl, rfl⟩

/-- C5 counterexample: not every item-state or fund write of the core
operations is guarded by a condition evaluated atomically with the write;
the publish update is a plain unconditional update_item. -/
theorem core_writes_not_all_guarded :
    ¬ (∀ w ∈ coreWrites, guardedWrite w = true) := by decide

/-- C5 amended: every item-state or fund write of the core mutating
operations except the publish update is conditional or sits inside a
condition-carrying transaction; the publish update alone is issued
unconditionally after a separate read check. -/
theorem core_writes_guarded_except_publish :
    (∀ w ∈ coreWrites, w.op ≠ "seller_publish_item_by_id update_item" →
      guardedWrite w = true) ∧
    guardedWrite ⟨"seller_publish_item_by_id update_item", false, false⟩ = false :=
  ⟨by decide, rfl⟩

/-- C5 witness: the delete write is guarded, by the amended theorem. -/
theorem core_writes_guarded_except_publish_witness :
    guardedWrite ⟨"seller_delete_item_by_id delete_item", true, false⟩ = true :=
  core_writes_guarded_except_publish.1 ⟨"seller_delete_item_by_id delete_item", true, false⟩
    (by decide) (by decide)

/-- C10: for a buyer call at time now (a realistic clock: at least one day
past the epoch and below 2 ^ 63 ms), the recently-sold listing returns
exactly the items whose state is Archived and whose soldTime t satisfies
0 < now - t < 24 hours, both bounds strict: items sold 24 hours or more ago,
items with soldTime equal to now or in the future, unsold items and
non-Archived items are all excluded. -/
theorem get_recently_sold_exactly_window (claim : Claim) (tableItems : List Item)
    (now : Int) (hrole : claim.userType = .buyer)
    (hn0 : 86400000 ≤ now) (hn1 : now < 2 ^ 63)
    (hrange : ∀ it ∈ tableItems, it.soldTime.getD 0 < 2 ^ 64) :
    ∃ res, get_recently_sold claim tableItems now = .ok res ∧
      ∀ x, x ∈ res ↔ x ∈ tableItems ∧ x.state = .archived ∧
        ∃ t, x.soldTime = some t ∧ 0 < now - (t : Int) ∧ now - (t : Int) < 86400000 := by
  refine ⟨(tableItems.filter recentSoldScanFilter).filter (soldWithinDayFilter now), ?_, ?_⟩
  · simp [get_recently_sold, check_user, hrole]
  · intro x
    simp only [List.mem_filter, recentSoldScanFilter, Bool.and_eq_true, decide_eq_true_eq]
    constructor
    · rintro ⟨⟨hmem, hst, _⟩, hday⟩
      exact ⟨hmem, hst, (soldWithinDayFilter_iff now x hn0 hn1 (hrange x hmem)).1 hday⟩
    · rintro ⟨hmem, hst, t, hts, h0, h1⟩
      refine ⟨⟨hmem, hst, by simp [hts]⟩, ?_⟩
      exact (soldWithinDayFilter_iff now x hn0 hn1 (hrange x hmem)).2 ⟨t, hts, h0, h1⟩

/-- C10 witness: the window at a concrete scan and time 10 ^ 12: the item
sold 1 ms ago is in; the items sold exactly one day ago, sold at now,
non-archived, or never sold are out. -/
theorem get_recently_sold_exactly_window_witness :
    ∃ res, get_recently_sold ⟨"b9", .buyer⟩ witRecentList 1000000000000 = .ok res ∧
      ∀ x, x ∈ res ↔ x ∈ witRecentList ∧ x.state = .archived ∧
        ∃ t, x.soldTime = some t ∧ 0 < (1000000000000 : Int) - (t : Int) ∧
          (1000000000000 : Int) - (t : Int) < 86400000 :=
  get_recently_sold_exactly_window ⟨"b9", .buyer⟩ witRecentList 1000000000000 rfl
    (by decide) (by decide) (by decide)

end AuctionHouse
